import Mathlib

/-!
Shallow embedding of the NOTEBOOKLMEDIT issue-detection / auto-adoption /
patch-correction pipeline, together with theorems settling the frozen claims.

Sources embedded:
* `backend/services/detection_service.py` (issue detection, auto-adopt policy,
  issue merging),
* `backend/services/pdf_service.py` (ROI extraction with margin and size cap,
  patch compositing),
* `backend/services/correction_service.py` (apply / undo of corrections),
* `backend/api/corrections.py` (the undo endpoint's state transitions),
* `backend/services/gemini_service.py` (`GeminiImageEditor.edit_roi_patch`
  retry loop, with the external model abstracted as a sequence of responses),
* `backend/config.py` (the numeric settings the above read).

Modelling conventions: Python `str` values that are scanned character by
character are `List Char`; Python floats are exact rationals `ℚ` (every
constant in the source is a short decimal, and no comparison in any proof
below is close enough to a threshold for IEEE rounding to change its
verdict); Python ints are `Int` (or `Nat` for counts); a fallible routine
returns `Option`/a `Bool` flag exactly where the source returns a failure
value or catches an exception.  The regular expressions of the source are
compiled by hand into equivalent executable scanners over `List Char`
(`re.search` = "some suffix has a match at its head"); character classes are
the ASCII classes written in the patterns (Python's Unicode-aware `\w`/`\d`
coincide with them on the ASCII and Japanese text the patterns target, and
every concrete string evaluated below is within that fragment).
-/

namespace NB

/-! ### Generic character/string helpers -/

/-- `starts_with pat l` : `pat` matches at the head of `l`. -/
def starts_with : List Char → List Char → Bool
  | [], _ => true
  | _ :: _, [] => false
  | a :: as, b :: bs => a == b && starts_with as bs

/-- `re.search` existence: some suffix of `l` matches scanner `p` at its head. -/
def search_any (p : List Char → Bool) (l : List Char) : Bool :=
  l.tails.any p

/-- Substring containment (used for Python's `kw in message` tests). -/
def has_substr (pat l : List Char) : Bool :=
  search_any (starts_with pat) l

/-- Python `str.strip()`: drop whitespace from both ends. -/
def python_strip (l : List Char) : List Char :=
  ((l.dropWhile Char.isWhitespace).reverse.dropWhile Char.isWhitespace).reverse

/-! ### detection_service.py — constants -/

/-- `GARBLED_CHARS`: the Python set literal `{'�','□','■','?','�','□','■'}`
(the escapes repeat the first three characters, so the set has four elements). -/
def GARBLED_CHARS : List Char := ['�', '□', '■', '?']

/-- The character class `[�□■]` of the first suspicious pattern. -/
def garbled_class : List Char := ['�', '□', '■']

/-- `r'[�□■]{2,}'` at head: two consecutive chars of the class. -/
def pat_garbled_run : List Char → Bool
  | a :: b :: _ => garbled_class.contains a && garbled_class.contains b
  | _ => false

/-- `r'[\?\!]{3,}'` at head: three consecutive `?`/`!`. -/
def pat_punct_run : List Char → Bool
  | a :: b :: c :: _ =>
      (a == '?' || a == '!') && (b == '?' || b == '!') && (c == '?' || c == '!')
  | _ => false

/-- After the leading `[a-z]` of `r'[a-z][A-Z]{3,}[a-z]'`: a maximal run of
uppercase letters followed by a lowercase letter, with the run length ≥ 3.
(The regex can only place its final `[a-z]` right after the full uppercase
run, so scanning the maximal run is equivalent.) -/
def uppers_then_lower : List Char → Nat → Bool
  | [], _ => false
  | c :: rest, n =>
      if c.isUpper then uppers_then_lower rest (n + 1)
      else decide (3 ≤ n) && c.isLower

/-- `r'[a-z][A-Z]{3,}[a-z]'` at head. -/
def pat_mixed_case : List Char → Bool
  | a :: rest => a.isLower && uppers_then_lower rest 0
  | [] => false

/-- `r'\d[a-zA-Z]\d[a-zA-Z]'` at head. -/
def pat_digit_alpha : List Char → Bool
  | a :: b :: c :: d :: _ => a.isDigit && b.isAlpha && c.isDigit && d.isAlpha
  | _ => false

/-- `SUSPICIOUS_PATTERNS` as head-scanners. -/
def SUSPICIOUS_PATTERNS : List (List Char → Bool) :=
  [pat_garbled_run, pat_punct_run, pat_mixed_case, pat_digit_alpha]

/-- The check-3 loop: `re.search` of any suspicious pattern (the source
`break`s after the first hit, which for the single appended problem string is
the same as an any-test). -/
def has_suspicious_pattern (text : List Char) : Bool :=
  SUSPICIOUS_PATTERNS.any (fun p => search_any p text)

/-! ### detection_service.py — sensitive patterns -/

/-- `r'\d{4,}'` at head. -/
def pat_long_number : List Char → Bool
  | a :: b :: c :: d :: _ => a.isDigit && b.isDigit && c.isDigit && d.isDigit
  | _ => false

/-- `r'https?://'` at head. -/
def pat_url (l : List Char) : Bool :=
  starts_with "http://".toList l || starts_with "https://".toList l

/-- `r'www\.'` at head. -/
def pat_www (l : List Char) : Bool :=
  starts_with "www.".toList l

/-- `\w` (ASCII fragment). -/
def is_word_char (c : Char) : Bool := c.isAlphanum || c == '_'

/-- The class `[\w.-]`. -/
def is_email_char (c : Char) : Bool := is_word_char c || c == '.' || c == '-'

/-- After the `@` of `r'[\w.-]+@[\w.-]+\.\w+'`: having consumed `n` class
characters, either place the literal dot here (needs `n ≥ 1` and a following
`\w`) or consume one more class character; the disjunction realizes the
regex engine's backtracking over the dot position. -/
def email_after_at : List Char → Nat → Bool
  | [], _ => false
  | c :: rest, n =>
      (decide (1 ≤ n) && c == '.' &&
        (match rest with | d :: _ => is_word_char d | [] => false))
      || (is_email_char c && email_after_at rest (n + 1))

/-- `r'[\w.-]+@[\w.-]+\.\w+'` at head (the suffix chosen by `search_any`
starts at the last class character before the `@`). -/
def pat_email : List Char → Bool
  | a :: b :: rest => is_email_char a && b == '@' && email_after_at rest 0
  | _ => false

/-- The dash-or-slash separator class of the date pattern. -/
def is_date_sep (c : Char) : Bool := c == '-' || c == '/'

/-- Leading-digit test. -/
def head_digit : List Char → Bool
  | c :: _ => c.isDigit
  | [] => false

/-- The tail of the date pattern after its first separator: one digit then either
a separator (one-digit month) or a second digit then a separator, then at
least one final digit; the disjunction is the engine's `{1,2}` backtracking. -/
def date_mid : List Char → Bool
  | a :: b :: rest =>
      a.isDigit &&
        ((is_date_sep b && head_digit rest)
          || (b.isDigit &&
              (match rest with
               | s :: r2 => is_date_sep s && head_digit r2
               | [] => false)))
  | _ => false

/-- The date pattern (four digits, a dash-or-slash separator, one or two
digits, a separator, one or two digits) at head. -/
def pat_date : List Char → Bool
  | d1 :: d2 :: d3 :: d4 :: s1 :: rest =>
      d1.isDigit && d2.isDigit && d3.isDigit && d4.isDigit &&
        is_date_sep s1 && date_mid rest
  | _ => false

/-- The class `[\d,]`. -/
def is_digit_comma (c : Char) : Bool := c.isDigit || c == ','

/-- `r'[\d,]+円'`: a match exists iff some class character is directly
followed by `円` (take the last class character of any longer match). -/
def pat_yen : List Char → Bool
  | a :: b :: _ => is_digit_comma a && b == '円'
  | _ => false

/-- `r'\$[\d,]+'` at head. -/
def pat_dollar : List Char → Bool
  | a :: b :: _ => a == '$' && is_digit_comma b
  | _ => false

/-- `r'[A-Z]{2,}\d+'`: a match exists iff two uppercase letters are directly
followed by a digit (take the last two uppers and first digit of any match). -/
def pat_product_code : List Char → Bool
  | a :: b :: c :: _ => a.isUpper && b.isUpper && c.isDigit
  | _ => false

/-- `r'\d+-\d+-\d+'` at head: with `search_any` over all suffixes, each `\d+`
must run to the end of its maximal digit run (the next literal is `-`). -/
def pat_phone : List Char → Bool
  | c :: rest =>
      c.isDigit &&
        (match rest.dropWhile Char.isDigit with
         | s1 :: r2 =>
            s1 == '-' &&
              (match r2 with
               | d :: r3 =>
                  d.isDigit &&
                    (match r3.dropWhile Char.isDigit with
                     | s2 :: r4 => s2 == '-' && head_digit r4
                     | [] => false)
               | [] => false)
         | [] => false)
  | [] => false

/-- `contains_sensitive_pattern`: the source loops the nine regexes and
returns on the first `re.search` hit — an any-test. -/
def contains_sensitive_pattern (text : List Char) : Bool :=
  [pat_long_number, pat_url, pat_www, pat_email, pat_date,
   pat_yen, pat_dollar, pat_product_code, pat_phone].any
    (fun p => search_any p text)

/-! ### detection_service.py — proper nouns, similarity, auto adopt -/

/-- The class `[ァ-ヶー]` (katakana U+30A1..U+30F6 plus the long-vowel mark). -/
def is_katakana (c : Char) : Bool :=
  (decide (0x30A1 ≤ c.toNat) && decide (c.toNat ≤ 0x30F6)) || c.toNat == 0x30FC

/-- The class `[一-龥]` (CJK U+4E00..U+9FA5). -/
def is_kanji (c : Char) : Bool :=
  decide (0x4E00 ≤ c.toNat) && decide (c.toNat ≤ 0x9FA5)

/-- `looks_like_proper_noun`: three anchored full matches
(`^[ァ-ヶ ー]+$` with length ≤ 10, `^[一-龥]+$` with length ≤ 4,
`^[A-Z][a-z]+$`). -/
def looks_like_proper_noun (text : List Char) : Bool :=
  (!text.isEmpty && text.all is_katakana && decide (text.length ≤ 10))
  || (!text.isEmpty && text.all is_kanji && decide (text.length ≤ 4))
  || (match text with
      | a :: rest => a.isUpper && !rest.isEmpty && rest.all Char.isLower
      | [] => false)

/-- `_text_similarity`: character-set Jaccard similarity of the stripped,
lower-cased texts (`set` sizes realized with `dedup`). -/
def text_similarity (text1 text2 : List Char) : ℚ :=
  if text1.isEmpty || text2.isEmpty then 0
  else
    let t1 := (python_strip text1).map Char.toLower
    let t2 := (python_strip text2).map Char.toLower
    if t1 = t2 then 1
    else
      let chars1 := t1.dedup
      let chars2 := t2.dedup
      let inter := (chars1.filter (fun c => chars2.contains c)).length
      let uni := (chars1 ++ chars2).dedup.length
      if uni = 0 then 0 else (inter : ℚ) / (uni : ℚ)

/-- A correction candidate `{text, confidence, reason}` (the `reason` field
is never read by the embedded code). -/
structure Candidate where
  text : List Char
  confidence : ℚ
deriving DecidableEq, Repr

/-- `evaluate_auto_adopt(ocr_text, candidates, ocr_confidence)`; the source's
nested `if` bodies that fall through when an inner test fails are rendered as
conjoined conditions, which has the same control flow. -/
def evaluate_auto_adopt (ocr_text : List Char) (candidates : List Candidate)
    (ocr_confidence : ℚ) : Bool × Option Nat :=
  match candidates with
  | [] => (false, none)
  | top :: rest =>
    if contains_sensitive_pattern ocr_text || contains_sensitive_pattern top.text then
      (false, none)
    else if looks_like_proper_noun top.text then
      (false, none)
    else if (match rest with
             | second :: _ => decide (top.confidence - second.confidence < 0.15)
             | [] => false) then
      (false, none)
    else if ocr_text.any (fun c => GARBLED_CHARS.contains c)
        && !top.text.any (fun c => GARBLED_CHARS.contains c)
        && decide ((0.85 : ℚ) < top.confidence) then
      (true, some 0)
    else if (0.90 : ℚ) < top.confidence then
      (true, some 0)
    else if (0.9 : ℚ) < ocr_confidence ∧ (0.85 : ℚ) < top.confidence
        ∧ (0.8 : ℚ) < text_similarity ocr_text top.text then
      (true, some 0)
    else if (0.80 : ℚ) < top.confidence then
      (true, some 0)
    else
      (false, none)

/-! ### detection_service.py — detect_issues -/

/-- One of the five `detected_problems` message templates; payloads carry the
values interpolated into the f-strings. -/
inductive Problem
  | lowConfidence (confidence : ℚ)
  | garbledChars (found : List Char)
  | suspiciousPattern
  | missingText
  | lowDensity (density : ℚ)
deriving DecidableEq, Repr

/-- Python's `"Garbled" in p`: of the five fixed message templates, exactly
the garbled-characters one contains the substring `Garbled`. -/
def problem_mentions_garbled : Problem → Bool
  | .garbledChars _ => true
  | _ => false

/-- `evaluate_auto_correctability(text, confidence, problems)`; the source's
nested `if any("Garbled" …): if confidence > 0.5: return True` falls through
when the inner test fails, i.e. behaves as the conjunction. -/
def evaluate_auto_correctability (text : List Char) (confidence : ℚ)
    (problems : List Problem) : Bool :=
  if contains_sensitive_pattern text then false
  else if problems.any problem_mentions_garbled ∧ (0.5 : ℚ) < confidence then true
  else if confidence < 0.6 then false
  else if (python_strip text).length < 5 then false
  else true

/-- A bbox as read from an OCR block dict (a missing key reads as 0 via
`.get(key, 0)`; a block with no bbox entries is the all-zero bbox). -/
structure BlockBbox where
  x : ℚ
  y : ℚ
  width : ℚ
  height : ℚ
deriving DecidableEq, Repr

/-- An OCR block as read by `detect_issues` (the `.get` defaults are
`text = ""`, `confidence = 1.0`, `bbox = {}`). -/
structure Block where
  text : List Char
  confidence : ℚ
  bbox : BlockBbox
deriving DecidableEq, Repr

/-- An issue dict as built by `detect_issues`. -/
structure DetectedIssue where
  page_id : String
  bbox_x : ℚ
  bbox_y : ℚ
  bbox_width : ℚ
  bbox_height : ℚ
  issue_type : String
  confidence : ℚ
  ocr_text : List Char
  detected_problems : List Problem
  status : String
  auto_correctable : Bool
deriving DecidableEq, Repr

/-- The per-block mutable pair `(issue_type, detected_problems)`. -/
structure DetectState where
  issue_type : Option String
  problems : List Problem
deriving DecidableEq, Repr

/-- Check 1: low confidence (assigns `issue_type` unconditionally; it is the
first check, so nothing is ever overwritten here). -/
def check_low_confidence (confidence : ℚ) (st : DetectState) : DetectState :=
  if confidence < 0.8 then
    ⟨some "low_confidence", st.problems ++ [.lowConfidence confidence]⟩
  else st

/-- Check 2: garbled characters. The source assigns `issue_type = "garbled"`
unconditionally when any garbled character is found (it also pre-sets a local
`auto_correctable = True` that is dead code: line 83 recomputes the flag). -/
def check_garbled (text : List Char) (st : DetectState) : DetectState :=
  let garbled_found := text.filter (fun c => GARBLED_CHARS.contains c)
  if !garbled_found.isEmpty then
    ⟨some "garbled", st.problems ++ [.garbledChars garbled_found]⟩
  else st

/-- Check 3: suspicious patterns; assigns `"garbled"` only `if not issue_type`. -/
def check_suspicious (text : List Char) (st : DetectState) : DetectState :=
  if has_suspicious_pattern text then
    ⟨some (st.issue_type.getD "garbled"), st.problems ++ [.suspiciousPattern]⟩
  else st

/-- Check 4: very short text in a large box; assigns `"missing"`
unconditionally. -/
def check_missing_area (text : List Char) (bbox : BlockBbox) (st : DetectState) :
    DetectState :=
  if 100 < bbox.width ∧ 30 < bbox.height ∧ (python_strip text).length < 3 then
    ⟨some "missing", st.problems ++ [.missingText]⟩
  else st

/-- Check 5: unusual character density; assigns `"missing"` only
`if not issue_type`. -/
def check_density (text : List Char) (bbox : BlockBbox) (st : DetectState) :
    DetectState :=
  if 0 < bbox.width ∧ 0 < bbox.height then
    let area := bbox.width * bbox.height
    let char_density := (text.length : ℚ) / (area / 1000)
    if char_density < 0.1 ∧ 5 < text.length then
      ⟨some (st.issue_type.getD "missing"), st.problems ++ [.lowDensity char_density]⟩
    else st
  else st

/-- The body of the `for block in blocks` loop: run the five checks, then
build an issue dict `if issue_type and detected_problems`. -/
def analyze_block (page_id : String) (block : Block) : Option DetectedIssue :=
  let text := block.text
  let confidence := block.confidence
  let bbox := block.bbox
  let st := check_density text bbox
    (check_missing_area text bbox
      (check_suspicious text
        (check_garbled text
          (check_low_confidence confidence ⟨none, []⟩))))
  match st.issue_type with
  | some t =>
    if !st.problems.isEmpty then
      some { page_id := page_id
             bbox_x := bbox.x
             bbox_y := bbox.y
             bbox_width := bbox.width
             bbox_height := bbox.height
             issue_type := t
             confidence := confidence
             ocr_text := text
             detected_problems := st.problems
             status := "detected"
             auto_correctable := evaluate_auto_correctability text confidence st.problems }
    else none
  | none => none

/-- `settings.max_issues_per_page` (config.py). -/
def max_issues_per_page : Nat := 20

/-- `detect_issues(ocr_result, page_id)`: the block loop appends to a shared
list (a `filterMap`), then the result is truncated to
`issues[:settings.max_issues_per_page]`. -/
def detect_issues (blocks : List Block) (page_id : String) : List DetectedIssue :=
  (blocks.filterMap (analyze_block page_id)).take max_issues_per_page

/-! ### detection_service.py — merging -/

/-- `_bboxes_nearby(issue1, issue2, threshold)`. -/
def bboxes_nearby (issue1 issue2 : DetectedIssue) (threshold : ℚ) : Bool :=
  let c1_x := issue1.bbox_x + issue1.bbox_width / 2
  let c1_y := issue1.bbox_y + issue1.bbox_height / 2
  let c2_x := issue2.bbox_x + issue2.bbox_width / 2
  let c2_y := issue2.bbox_y + issue2.bbox_height / 2
  let h_dist := |c1_x - c2_x| - (issue1.bbox_width + issue2.bbox_width) / 2
  let v_dist := |c1_y - c2_y| - (issue1.bbox_height + issue2.bbox_height) / 2
  decide (h_dist < threshold ∧ v_dist < threshold)

/-- `_merge_two_issues(issue1, issue2)`: union bbox; texts joined by a single
space then `strip`ped; problems de-duplicated (`list(set(..))` — the Python
set order is unspecified, modelled as `dedup` of the concatenation); minimum
confidence; all other fields copied from `issue1`. -/
def merge_two_issues (issue1 issue2 : DetectedIssue) : DetectedIssue :=
  let x1 := min issue1.bbox_x issue2.bbox_x
  let y1 := min issue1.bbox_y issue2.bbox_y
  let x2 := max (issue1.bbox_x + issue1.bbox_width) (issue2.bbox_x + issue2.bbox_width)
  let y2 := max (issue1.bbox_y + issue1.bbox_height) (issue2.bbox_y + issue2.bbox_height)
  { issue1 with
      bbox_x := x1
      bbox_y := y1
      bbox_width := x2 - x1
      bbox_height := y2 - y1
      ocr_text := python_strip (issue1.ocr_text ++ [' '] ++ issue2.ocr_text)
      detected_problems := (issue1.detected_problems ++ issue2.detected_problems).dedup
      confidence := min issue1.confidence issue2.confidence }

/-- The inner `for j, issue2 in enumerate(issues[i+1:], i+1)` loop: fold the
not-yet-used nearby issues into the accumulator, recording their indices. -/
def merge_scan (threshold : ℚ) (current : DetectedIssue) (used : List Nat) :
    List (Nat × DetectedIssue) → DetectedIssue × List Nat
  | [] => (current, used)
  | (j, issue2) :: tl =>
    if j ∈ used then merge_scan threshold current used tl
    else if bboxes_nearby current issue2 threshold then
      merge_scan threshold (merge_two_issues current issue2) (j :: used) tl
    else merge_scan threshold current used tl

/-- The outer `for i, issue1 in enumerate(issues)` loop. -/
def merge_outer (threshold : ℚ) : List (Nat × DetectedIssue) → List Nat → List DetectedIssue
  | [], _ => []
  | (i, issue1) :: tl, used =>
    if i ∈ used then merge_outer threshold tl used
    else
      let p := merge_scan threshold issue1 used tl
      p.1 :: merge_outer threshold tl (i :: p.2)

/-- `merge_nearby_issues(issues, threshold)` (the source defaults
`threshold` to 20). -/
def merge_nearby_issues (issues : List DetectedIssue) (threshold : ℚ) :
    List DetectedIssue :=
  if issues.length ≤ 1 then issues
  else merge_outer threshold issues.enum []

/-! ### pdf_service.py — images, ROI extraction, patch compositing

A raster image is its integer dimensions plus a pixel function; one `Nat`
per pixel stands for the (flattened) color value.  PNG round-trips are
lossless and deterministic, so "the stored bytes are equal / differ" is
modelled as "the decoded pixel grids are equal / differ". -/

structure Img where
  width : Int
  height : Int
  pix : Int → Int → Nat

/-- A bbox dict with integer page-pixel coordinates, as passed to
`extract_roi_with_margin` / `apply_patch_to_page`. -/
structure PatchBbox where
  x : Int
  y : Int
  width : Int
  height : Int
deriving DecidableEq, Repr

/-- `settings.max_roi_width` (config.py). -/
def max_roi_width : Int := 500

/-- `settings.max_roi_height` (config.py). -/
def max_roi_height : Int := 500

/-- `settings.roi_margin` (config.py). -/
def roi_margin : Int := 40

/-- PIL `img.crop((x1, y1, x2, y2))`. -/
def crop_img (img : Img) (x1 y1 x2 y2 : Int) : Img :=
  ⟨x2 - x1, y2 - y1, fun i j => img.pix (x1 + i) (y1 + j)⟩

/-- PIL `base.paste(patch, (px, py))`: pixels under the (clipped) patch come
from the patch, the rest keep the base value.  The conversions to `RGBA` and
back to `RGB` around the paste are identities on the pixel model (the pages
are opaque PNGs). -/
def paste_img (base patch : Img) (px py : Int) : Img :=
  ⟨base.width, base.height, fun x y =>
    if px ≤ x ∧ x < px + patch.width ∧ py ≤ y ∧ y < py + patch.height then
      patch.pix (x - px) (y - py)
    else base.pix x y⟩

/-- The adjusted bbox returned by `extract_roi_with_margin`:
crop origin/size plus `original_bbox_offset`. -/
structure AdjustedBbox where
  x : Int
  y : Int
  width : Int
  height : Int
  offset_x : Int
  offset_y : Int
deriving DecidableEq, Repr

/-- `extract_roi_with_margin(page_image, bbox, margin)` (the storage read of
the page image is the caller's job here): expand by `margin`, clamp to the
image, then the size-cap shrink `x1 += excess // 2; x2 -= excess // 2` (and
likewise for y).  Lean's `Int` division is Euclidean, which on the
nonnegative `excess` of the shrink branch agrees with Python's floor `//`. -/
def extract_roi_with_margin (img : Img) (bbox : PatchBbox) (margin : Int) :
    Img × AdjustedBbox :=
  let x1 := max 0 (bbox.x - margin)
  let y1 := max 0 (bbox.y - margin)
  let x2 := min img.width (bbox.x + bbox.width + margin)
  let y2 := min img.height (bbox.y + bbox.height + margin)
  let px :=
    if max_roi_width < x2 - x1 then
      (x1 + ((x2 - x1) - max_roi_width) / 2, x2 - ((x2 - x1) - max_roi_width) / 2)
    else (x1, x2)
  let py :=
    if max_roi_height < y2 - y1 then
      (y1 + ((y2 - y1) - max_roi_height) / 2, y2 - ((y2 - y1) - max_roi_height) / 2)
    else (y1, y2)
  (crop_img img px.1 py.1 px.2 py.2,
   ⟨px.1, py.1, px.2 - px.1, py.2 - py.1, bbox.x - px.1, bbox.y - py.1⟩)

/-! ### Storage (backend/storage), as used by the correction service -/

/-- The raster store: path-addressed images; `save_bytes` overwrites. -/
def Store := List (String × Img)

/-- `storage().get(path)` (raises on a missing path — callers match on
`none`). -/
def store_get : Store → String → Option Img
  | [], _ => none
  | (p, img) :: tl, path => if p = path then some img else store_get tl path

/-- `storage().save_bytes(bytes, path)`. -/
def store_save (s : Store) (path : String) (img : Img) : Store :=
  (path, img) :: s

/-- `apply_patch_to_page(page_image_path, patch_bytes, patch_bbox)`: re-read
the page from storage, paste the patch at the bbox origin, return the
updated page (`none` when the page path is missing, where the source
raises). -/
def apply_patch_to_page (store : Store) (page_image_path : String) (patch : Img)
    (px py : Int) : Option Img :=
  (store_get store page_image_path).map (fun page => paste_img page patch px py)

/-! ### correction_service.py — apply / undo

`apply_text_overlay` draws with PIL fonts over the ROI; its pixel output is
not statable, but nothing below depends on it, so the renderer is a
parameter `overlay` taking the ROI image and the bbox-in-ROI (the
`nano_banana` path differs from `text_overlay` only in how this patch is
produced, and both paste the result the same way). -/

/-- `apply_correction(page_image_path, issue_bbox, …)` for the
`text_overlay` method: extract the ROI, save the before patch, render the
correction, save the after patch, paste it onto the page at the adjusted
bbox origin, and overwrite the page image.  Returns the new store and the
before/after patch paths (`none` where the source would raise on a missing
page path). -/
def apply_correction (store : Store) (page_image_path : String)
    (issue_bbox : PatchBbox) (overlay : Img → PatchBbox → Img)
    (project_id issue_id : String) : Option (Store × String × String) :=
  match store_get store page_image_path with
  | none => none
  | some img =>
    let r := extract_roi_with_margin img issue_bbox roi_margin
    let roi := r.1
    let adjusted := r.2
    let before_path := "projects/" ++ project_id ++ "/patches/" ++ issue_id ++ "_before.png"
    let store1 := store_save store before_path roi
    let bbox_in_roi : PatchBbox :=
      ⟨adjusted.offset_x, adjusted.offset_y, issue_bbox.width, issue_bbox.height⟩
    let corrected := overlay roi bbox_in_roi
    let after_path := "projects/" ++ project_id ++ "/patches/" ++ issue_id ++ "_after.png"
    let store2 := store_save store1 after_path corrected
    match apply_patch_to_page store2 page_image_path corrected adjusted.x adjusted.y with
    | none => none
    | some updated => some (store_save store2 page_image_path updated, before_path, after_path)

/-- `undo_correction(page_image_path, patch_before_path, patch_bbox)`: the
whole body is wrapped in `try/except: return False`, so every failure
(missing before patch, missing page) yields `(false, unchanged store)`. -/
def undo_correction (store : Store) (page_image_path patch_before_path : String)
    (patch_bbox : PatchBbox) : Bool × Store :=
  match store_get store patch_before_path with
  | none => (false, store)
  | some before =>
    match apply_patch_to_page store page_image_path before patch_bbox.x patch_bbox.y with
    | none => (false, store)
    | some updated => (true, store_save store page_image_path updated)

/-! ### api/corrections.py — the undo endpoint -/

/-- The columns of a `Correction` row the undo endpoint reads or writes. -/
structure CorrectionRow where
  applied : Bool
  patch_before_path : String
deriving DecidableEq, Repr

/-- The columns of an `Issue` row the undo endpoint reads or writes. -/
structure IssueRow where
  status : String
  bbox : PatchBbox
deriving DecidableEq, Repr

/-- The state touched by the undo endpoint: the raster store plus the
correction and issue rows. -/
structure ApiState where
  store : Store
  correction : CorrectionRow
  issue : IssueRow

/-- `undo_correction_endpoint`: 400 when the correction is not applied;
otherwise call `undo_correction` with the **issue** bbox
(`{x: issue.bbox_x, …}`); on failure raise 500 (leaving the rows untouched —
the mutations and commit sit after the success check); on success flip
`applied` and set the issue status to `"reviewing"`.  The first component is
the HTTP error status, `none` on success. -/
def undo_correction_endpoint (page_image_path : String) (st : ApiState) :
    Option Nat × ApiState :=
  if st.correction.applied = false then (some 400, st)
  else
    let r := undo_correction st.store page_image_path
      st.correction.patch_before_path st.issue.bbox
    if r.1 then
      (none, { store := r.2
               correction := { st.correction with applied := false }
               issue := { st.issue with status := "reviewing" } })
    else (some 500, { st with store := r.2 })

/-! ### gemini_service.py — GeminiImageEditor.edit_roi_patch

The external model is a sequence of responses, one per attempt: either a
response whose parts contain image data, a response with no image part, or a
raised exception carrying a message. -/

inductive GemResponse
  | withImage (data : List Nat)
  | noImage
  | raises (msg : String)

/-- `str(e).lower()`. -/
def lower_chars (s : String) : List Char := s.data.map Char.toLower

/-- `kw in error_msg` on the lower-cased message. -/
def msg_has (msg kw : String) : Bool := has_substr kw.data (lower_chars msg)

/-- The thought-signature test `"thought" in error_msg or "signature" in
error_msg`. -/
def is_signature_error (msg : String) : Bool :=
  msg_has msg "thought" || msg_has msg "signature"

/-- The rate-limit test `"rate" in error_msg or "quota" in error_msg`. -/
def is_rate_error (msg : String) : Bool :=
  msg_has msg "rate" || msg_has msg "quota"

/-- `self.max_retries` (set in `__init__`). -/
def max_retries : Nat := 3

/-- The `for attempt in range(self.max_retries)` loop of `edit_roi_patch`.
A signature-type error clears the stored thought signature and `continue`s;
a rate/quota error returns immediately; any other error returns only on the
last attempt and otherwise falls through to the next iteration. -/
def edit_attempts (responses : Nat → GemResponse) :
    List Nat → Option (List Nat) × String
  | [] => (none, "Max retries exceeded")
  | attempt :: rest =>
    match responses attempt with
    | .withImage data => (some data, "success")
    | .noImage => (none, "No image in Gemini response")
    | .raises msg =>
      if is_signature_error msg then edit_attempts responses rest
      else if is_rate_error msg then (none, "Rate limited: " ++ msg)
      else if attempt = max_retries - 1 then
        (none, "Gemini error after 3 attempts: " ++ msg)
      else edit_attempts responses rest

/-- `GeminiImageEditor.edit_roi_patch`, with the model's behaviour given by
`responses`. -/
def edit_roi_patch (responses : Nat → GemResponse) : Option (List Nat) × String :=
  edit_attempts responses (List.range max_retries)

/-! ## Theorems about the claims -/

/-- C10: for every input (any text, any candidate list, any confidence),
`evaluate_auto_adopt` returns either `(true, 0)` or `(false, null)`; the
selected index is never `null` alongside `true`, and no candidate other than
the top-ranked one (index 0) is ever selected. -/
theorem evaluate_auto_adopt_dichotomy (ocr_text : List Char)
    (candidates : List Candidate) (ocr_confidence : ℚ) :
    evaluate_auto_adopt ocr_text candidates ocr_confidence = (true, some 0) ∨
    evaluate_auto_adopt ocr_text candidates ocr_confidence = (false, none) := by
  cases candidates with
  | nil => right; rfl
  | cons top rest =>
    simp only [evaluate_auto_adopt]
    split_ifs <;> simp

/-- C3: for every candidate list and every OCR confidence, if the original
text or the top candidate's text matches a sensitive pattern,
`evaluate_auto_adopt` returns `(false, null)`. -/
theorem evaluate_auto_adopt_sensitive_rejected (ocr_text : List Char)
    (candidates : List Candidate) (ocr_confidence : ℚ)
    (h : contains_sensitive_pattern ocr_text = true ∨
      ∃ top rest, candidates = top :: rest ∧ contains_sensitive_pattern top.text = true) :
    evaluate_auto_adopt ocr_text candidates ocr_confidence = (false, none) := by
  cases candidates with
  | nil => rfl
  | cons top rest =>
    have hsens : (contains_sensitive_pattern ocr_text
        || contains_sensitive_pattern top.text) = true := by
      rcases h with h | ⟨t, r, heq, ht⟩
      · simp [h]
      · cases heq; simp [ht]
    simp [evaluate_auto_adopt, hsens]

/-- Witness for C3: `"1234"` matches the long-number sensitive pattern and is
rejected. -/
theorem evaluate_auto_adopt_sensitive_rejected_witness :
    evaluate_auto_adopt ['1', '2', '3', '4'] [] (1/2) = (false, none) :=
  evaluate_auto_adopt_sensitive_rejected _ _ _ (Or.inl (by decide))

/-- C7: for every non-sensitive, non-proper-noun input with at least two
candidates, a rank-1/rank-2 confidence gap strictly below `0.15` makes
`evaluate_auto_adopt` return `(false, null)`. -/
theorem evaluate_auto_adopt_close_gap_rejected (ocr_text : List Char)
    (top second : Candidate) (rest : List Candidate) (ocr_confidence : ℚ)
    (h1 : contains_sensitive_pattern ocr_text = false)
    (h2 : contains_sensitive_pattern top.text = false)
    (h3 : looks_like_proper_noun top.text = false)
    (h4 : top.confidence - second.confidence < 0.15) :
    evaluate_auto_adopt ocr_text (top :: second :: rest) ocr_confidence
      = (false, none) := by
  simp [evaluate_auto_adopt, h1, h2, h3, h4]

/-- Witness for C7: the spec's example
`should_auto_adopt("X", [Y@0.7, Z@0.6], 0.5) = (false, null)`. -/
theorem evaluate_auto_adopt_close_gap_rejected_witness :
    evaluate_auto_adopt ['X'] [⟨['Y'], 0.7⟩, ⟨['Z'], 0.6⟩] 0.5 = (false, none) :=
  evaluate_auto_adopt_close_gap_rejected _ _ _ _ _
    (by decide) (by decide) (by decide) (by norm_num)

/-- The response sequence refuting C5: a generic (non-session, non-rate)
error on the first attempt, then a successful image response. -/
def c5_responses : Nat → GemResponse
  | 0 => .raises "connection reset by peer"
  | 1 => .withImage [7]
  | _ => .noImage

/-- Counterexample to C5 as stated: after a first-attempt error that is
neither a session/signature error nor a rate/quota error, `edit_roi_patch`
performs a second attempt and returns its image — so errors other than
session/signature ones do trigger internal retries. -/
theorem edit_roi_patch_generic_error_retried :
    edit_roi_patch c5_responses = (some [7], "success") ∧
    is_signature_error "connection reset by peer" = false ∧
    is_rate_error "connection reset by peer" = false := by decide

/-- C5 as amended: a rate-limit/quota error whose message has no
session/signature keyword is returned as a failure immediately on the first
attempt with no further attempts; both session/signature-type errors and all
other non-rate errors trigger an internal retry (bounded by `max_retries`). -/
theorem edit_roi_patch_retry_classes :
    (∀ (responses : Nat → GemResponse) (msg : String),
      is_signature_error msg = false → is_rate_error msg = true →
      responses 0 = .raises msg →
      edit_roi_patch responses = (none, "Rate limited: " ++ msg)) ∧
    (∀ (responses : Nat → GemResponse) (msg : String) (data : List Nat),
      (is_rate_error msg = false ∨ is_signature_error msg = true) →
      responses 0 = .raises msg → responses 1 = .withImage data →
      edit_roi_patch responses = (some data, "success")) := by
  constructor
  · intro responses msg hsig hrate h0
    simp [edit_roi_patch, max_retries, List.range_succ, edit_attempts, h0, hsig, hrate]
  · intro responses msg data hkind h0 h1
    rcases hkind with hrate | hsig
    · cases hsig : is_signature_error msg <;>
        simp [edit_roi_patch, max_retries, List.range_succ, edit_attempts,
          h0, h1, hsig, hrate]
    · simp [edit_roi_patch, max_retries, List.range_succ, edit_attempts, h0, h1, hsig]

/-- Witness for C5 (amended): a pure quota error returns immediately; a
signature error and a generic error are each retried and succeed on the
second attempt. -/
theorem edit_roi_patch_retry_classes_witness :
    edit_roi_patch (fun n => match n with
        | 0 => .raises "quota exceeded" | _ => .withImage [1])
      = (none, "Rate limited: " ++ "quota exceeded") ∧
    edit_roi_patch (fun n => match n with
        | 0 => .raises "invalid thought signature" | _ => .withImage [2])
      = (some [2], "success") ∧
    edit_roi_patch (fun n => match n with
        | 0 => .raises "boom" | _ => .withImage [3])
      = (some [3], "success") :=
  ⟨edit_roi_patch_retry_classes.1 _ _ (by decide) (by decide) rfl,
   edit_roi_patch_retry_classes.2 _ _ _ (Or.inr (by decide)) rfl rfl,
   edit_roi_patch_retry_classes.2 _ _ _ (Or.inl (by decide)) rfl rfl⟩

/-- The input refuting C4: a 600×600 page with a bbox whose margin-expanded,
clamped width is 501 — an odd excess of 1 over the 500 cap, which the
`excess // 2` shrink (`1 // 2 = 0` off each edge) does not reduce. -/
def c4_img : Img := ⟨600, 600, fun _ _ => 0⟩

/-- The bbox of the C4 counterexample: the clamped ROI width is
`min 600 (0 + 461 + 40) - max 0 (0 - 40) = 501`. -/
def c4_bbox : PatchBbox := ⟨0, 0, 461, 10⟩

/-- Counterexample to C4 as stated: the adjusted bbox can come out one pixel
wider than `max_roi_width`. -/
theorem extract_roi_cap_exceeded :
    (extract_roi_with_margin c4_img c4_bbox 40).2.width = 501 ∧
    ¬ (extract_roi_with_margin c4_img c4_bbox 40).2.width ≤ max_roi_width := by
  decide

/-- C4 as amended: after margin expansion, bounds clamping and the size-cap
shrink, the adjusted bbox satisfies `width ≤ max_roi_width + 1` and
`height ≤ max_roi_height + 1` (the floor-halved shrink leaves one excess
pixel when the excess is odd, and removes all of it otherwise). -/
theorem extract_roi_cap_within_one (img : Img) (bbox : PatchBbox) (margin : Int) :
    (extract_roi_with_margin img bbox margin).2.width ≤ max_roi_width + 1 ∧
    (extract_roi_with_margin img bbox margin).2.height ≤ max_roi_height + 1 := by
  unfold extract_roi_with_margin max_roi_width max_roi_height
  dsimp only
  constructor <;> split_ifs <;> omega

/-- Modelled from the amended C2: the `issue_type` that survives the five
checks.  Checks 2 (garbled) and 4 (missing-by-large-area) assign the type
unconditionally, overriding earlier checks; checks 3 (suspicious pattern)
and 5 (density) assign only if it is still unset.  So the surviving type is:
missing if check 4 fired; else garbled if check 2 fired; else low_confidence
if check 1 fired; else garbled if check 3 fired; else missing if check 5
fired; else none. -/
def override_issue_type (b : Block) : Option String :=
  if 100 < b.bbox.width ∧ 30 < b.bbox.height ∧ (python_strip b.text).length < 3 then
    some "missing"
  else if !(b.text.filter (fun c => GARBLED_CHARS.contains c)).isEmpty then
    some "garbled"
  else if b.confidence < 0.8 then
    some "low_confidence"
  else if has_suspicious_pattern b.text then
    some "garbled"
  else if 0 < b.bbox.width ∧ 0 < b.bbox.height then
    (if (b.text.length : ℚ) / (b.bbox.width * b.bbox.height / 1000) < 0.1
        ∧ 5 < b.text.length then
      some "missing"
    else none)
  else none

/-- The `issue_type` surviving the five-check chain equals the
override-order value. -/
lemma detect_chain_issue_type (b : Block) :
    (check_density b.text b.bbox (check_missing_area b.text b.bbox
      (check_suspicious b.text (check_garbled b.text
        (check_low_confidence b.confidence ⟨none, []⟩))))).issue_type
    = override_issue_type b := by
  unfold check_density check_missing_area check_suspicious check_garbled
    check_low_confidence override_issue_type
  dsimp only
  split_ifs <;> simp_all [Option.getD]

/-- C2 as amended: the `issue_type` of every surfaced issue follows the
override order of `override_issue_type` — not the first-set priority order of
the claim, because checks 2 and 4 overwrite an already-set type. -/
theorem issue_type_override_order (page_id : String) (b : Block)
    (iss : DetectedIssue) (h : analyze_block page_id b = some iss) :
    override_issue_type b = some iss.issue_type := by
  rw [← detect_chain_issue_type b]
  unfold analyze_block at h
  dsimp only at h
  cases hst : (check_density b.text b.bbox (check_missing_area b.text b.bbox
      (check_suspicious b.text (check_garbled b.text
        (check_low_confidence b.confidence ⟨none, []⟩))))).issue_type with
  | none => rw [hst] at h; exact absurd h (by simp)
  | some t =>
    rw [hst] at h
    dsimp only at h
    by_cases hp : (!(check_density b.text b.bbox (check_missing_area b.text b.bbox
        (check_suspicious b.text (check_garbled b.text
          (check_low_confidence b.confidence ⟨none, []⟩))))).problems.isEmpty) = true
    · rw [if_pos hp] at h
      injection h with h2
      rw [← h2]
    · rw [if_neg hp] at h
      exact absurd h (by simp)

/-- The block refuting C2 as stated: check 1 fires (confidence `0.5 < 0.8`
sets `low_confidence`), yet check 2 overwrites the already-set type with
`garbled`. -/
def c2_block : Block :=
  { text := ['�', '�'], confidence := 1/2, bbox := ⟨0, 0, 0, 0⟩ }

/-- The issue `detect_issues` produces for `c2_block` (problems from checks
1–3; `auto_correctable` is false since `0.5 < 0.5` fails and then
`0.5 < 0.6` rejects). -/
def c2_issue : DetectedIssue :=
  { page_id := "p"
    bbox_x := 0
    bbox_y := 0
    bbox_width := 0
    bbox_height := 0
    issue_type := "garbled"
    confidence := 1/2
    ocr_text := ['�', '�']
    detected_problems := [.lowConfidence (1/2), .garbledChars ['�', '�'], .suspiciousPattern]
    status := "detected"
    auto_correctable := false }

/-- Evaluation of the detection pipeline at `c2_block`. -/
lemma analyze_block_c2 : analyze_block "p" c2_block = some c2_issue := by
  have h1 : ((1 : ℚ)/2 < 0.8) := by norm_num
  have h2 : ¬ ((100 : ℚ) < 0 ∧ (30 : ℚ) < 0 ∧ (python_strip c2_block.text).length < 3) := by
    rintro ⟨h, -⟩; norm_num at h
  have h3 : ¬ ((0 : ℚ) < 0 ∧ (0 : ℚ) < 0) := by rintro ⟨h, -⟩; norm_num at h
  have h4 : ¬ ((0.5 : ℚ) < 1/2) := by norm_num
  have h5 : ((1 : ℚ)/2 < 0.6) := by norm_num
  unfold analyze_block check_density check_missing_area check_suspicious
    check_garbled check_low_confidence evaluate_auto_correctability
  simp only [c2_block, c2_issue, if_pos h1]
  norm_num [has_suspicious_pattern, SUSPICIOUS_PATTERNS, search_any, List.tails,
    pat_garbled_run, pat_punct_run, pat_mixed_case, pat_digit_alpha, garbled_class,
    GARBLED_CHARS, contains_sensitive_pattern, pat_long_number, pat_url, pat_www,
    pat_email, pat_date, pat_yen, pat_dollar, pat_product_code, pat_phone,
    starts_with, is_email_char, is_word_char, is_digit_comma, head_digit,
    python_strip, problem_mentions_garbled, h2, h3, h4, h5]

/-- Counterexample to C2 as stated: on a block where the low-confidence
check has already set `issue_type`, the later garbled check changes it — the
surfaced issue's type is `garbled`, not the first-set `low_confidence`. -/
theorem issue_type_priority_counterexample :
    (detect_issues [c2_block] "p").map (fun i => i.issue_type) = ["garbled"] ∧
    c2_block.confidence < 0.8 := by
  constructor
  · simp [detect_issues, analyze_block_c2, max_issues_per_page, c2_issue]
  · norm_num [c2_block]

/-- Witness for the amended C2, at the block of the counterexample. -/
theorem issue_type_override_order_witness :
    override_issue_type c2_block = some c2_issue.issue_type :=
  issue_type_override_order "p" c2_block c2_issue analyze_block_c2

/-- Checks 3–5 keep `issue_type` set once it is set, and never drop recorded
problems. -/
lemma later_checks_preserve (t : List Char) (bbox : BlockBbox) (p : Problem)
    (st : DetectState) (h1 : st.issue_type.isSome = true) (h2 : p ∈ st.problems) :
    (check_density t bbox (check_missing_area t bbox
      (check_suspicious t st))).issue_type.isSome = true ∧
    p ∈ (check_density t bbox (check_missing_area t bbox
      (check_suspicious t st))).problems := by
  unfold check_density check_missing_area check_suspicious
  dsimp only
  split_ifs <;> simp_all

/-- A nonempty block of only garbled glyphs, with confidence above `0.5` and
no sensitive pattern, analyzes to an issue marked auto-correctable. -/
lemma analyze_block_garbled_surfaces (page_id : String) (b : Block)
    (hne : b.text ≠ []) (hgar : ∀ c ∈ b.text, c ∈ GARBLED_CHARS)
    (hconf : (0.5 : ℚ) < b.confidence)
    (hsens : contains_sensitive_pattern b.text = false) :
    ∃ iss, analyze_block page_id b = some iss ∧ iss.ocr_text = b.text ∧
      iss.auto_correctable = true := by
  have hfilter : b.text.filter (fun c => GARBLED_CHARS.contains c) = b.text :=
    List.filter_eq_self.mpr (fun c hc => by simpa using hgar c hc)
  have hst2 : check_garbled b.text (check_low_confidence b.confidence ⟨none, []⟩)
      = ⟨some "garbled",
          (check_low_confidence b.confidence ⟨none, []⟩).problems
            ++ [.garbledChars b.text]⟩ := by
    unfold check_garbled
    dsimp only
    rw [hfilter]
    rw [if_pos (by simp [hne])]
  obtain ⟨hty, hpmem⟩ := later_checks_preserve b.text b.bbox (.garbledChars b.text)
    (check_garbled b.text (check_low_confidence b.confidence ⟨none, []⟩))
    (by rw [hst2]; rfl) (by rw [hst2]; simp)
  obtain ⟨v, hv⟩ := Option.isSome_iff_exists.mp hty
  have hprobs : (check_density b.text b.bbox (check_missing_area b.text b.bbox
      (check_suspicious b.text (check_garbled b.text
        (check_low_confidence b.confidence ⟨none, []⟩))))).problems ≠ [] :=
    List.ne_nil_of_mem hpmem
  have hauto : evaluate_auto_correctability b.text b.confidence
      (check_density b.text b.bbox (check_missing_area b.text b.bbox
        (check_suspicious b.text (check_garbled b.text
          (check_low_confidence b.confidence ⟨none, []⟩))))).problems = true := by
    unfold evaluate_auto_correctability
    rw [if_neg (by simp [hsens])]
    rw [if_pos ⟨List.any_eq_true.mpr ⟨_, hpmem, rfl⟩, hconf⟩]
  have hA : analyze_block page_id b = some
      { page_id := page_id, bbox_x := b.bbox.x, bbox_y := b.bbox.y,
        bbox_width := b.bbox.width, bbox_height := b.bbox.height,
        issue_type := v, confidence := b.confidence, ocr_text := b.text,
        detected_problems := (check_density b.text b.bbox
          (check_missing_area b.text b.bbox (check_suspicious b.text
            (check_garbled b.text
              (check_low_confidence b.confidence ⟨none, []⟩))))).problems,
        status := "detected",
        auto_correctable := evaluate_auto_correctability b.text b.confidence
          (check_density b.text b.bbox (check_missing_area b.text b.bbox
            (check_suspicious b.text (check_garbled b.text
              (check_low_confidence b.confidence ⟨none, []⟩))))).problems } := by
    unfold analyze_block
    dsimp only
    rw [hv]
    dsimp only
    rw [if_pos (by simp [hprobs])]
  exact ⟨_, hA, rfl, hauto⟩

/-- C9 as amended: for every OCR block of only garbled glyphs with
confidence above `0.5` and no sensitive pattern, `detect_issues` surfaces an
issue for it with `auto_correctable = true` — provided the page has at most
`max_issues_per_page` blocks, so the final truncation cannot drop it. -/
theorem garbled_blocks_surface_auto_correctable (blocks : List Block)
    (page_id : String) (b : Block) (hmem : b ∈ blocks)
    (hlen : blocks.length ≤ max_issues_per_page)
    (hne : b.text ≠ []) (hgar : ∀ c ∈ b.text, c ∈ GARBLED_CHARS)
    (hconf : (0.5 : ℚ) < b.confidence)
    (hsens : contains_sensitive_pattern b.text = false) :
    ∃ iss ∈ detect_issues blocks page_id,
      iss.ocr_text = b.text ∧ iss.auto_correctable = true := by
  obtain ⟨iss, hiss, hocr, hauto⟩ :=
    analyze_block_garbled_surfaces page_id b hne hgar hconf hsens
  refine ⟨iss, ?_, hocr, hauto⟩
  unfold detect_issues
  rw [List.take_of_length_le (le_trans (List.length_filterMap_le _ _) hlen)]
  exact List.mem_filterMap.mpr ⟨b, hmem, hiss⟩

/-- The block of the C9 witness. -/
def c9w_block : Block :=
  { text := ['�', '�'], confidence := 9/10, bbox := ⟨0, 0, 0, 0⟩ }

/-- Witness for the amended C9: a single garbled block on a page surfaces an
auto-correctable issue. -/
theorem garbled_blocks_surface_auto_correctable_witness :
    ∃ iss ∈ detect_issues [c9w_block] "p",
      iss.ocr_text = c9w_block.text ∧ iss.auto_correctable = true :=
  garbled_blocks_surface_auto_correctable [c9w_block] "p" c9w_block
    (by simp) (by decide) (by decide) (by decide)
    (by norm_num [c9w_block]) (by decide)

/-- The garbled block that fills the first twenty issue slots in the C9
counterexample. -/
def c9_block_a : Block :=
  { text := ['�', '�'], confidence := 9/10, bbox := ⟨0, 0, 0, 0⟩ }

/-- The 21st garbled block of the C9 counterexample, with a different text. -/
def c9_block_b : Block :=
  { text := ['□', '□'], confidence := 9/10, bbox := ⟨0, 0, 0, 0⟩ }

/-- The page of the C9 counterexample: twenty garbled blocks followed by one
more. -/
def c9_blocks : List Block := List.replicate 20 c9_block_a ++ [c9_block_b]

/-- The issue produced for `c9_block_a` (check 1 does not fire at
confidence `0.9`; checks 2 and 3 do; `auto_correctable` holds). -/
def c9_issue_a : DetectedIssue :=
  { page_id := "p"
    bbox_x := 0
    bbox_y := 0
    bbox_width := 0
    bbox_height := 0
    issue_type := "garbled"
    confidence := 9/10
    ocr_text := ['�', '�']
    detected_problems := [.garbledChars ['�', '�'], .suspiciousPattern]
    status := "detected"
    auto_correctable := true }

/-- Evaluation of the detection pipeline at `c9_block_a`. -/
lemma analyze_block_c9a : analyze_block "p" c9_block_a = some c9_issue_a := by
  have h1 : ¬ ((9 : ℚ)/10 < 0.8) := by norm_num
  have h2 : ¬ ((100 : ℚ) < 0 ∧ (30 : ℚ) < 0 ∧ (python_strip c9_block_a.text).length < 3) := by
    rintro ⟨h, -⟩; norm_num at h
  have h3 : ¬ ((0 : ℚ) < 0 ∧ (0 : ℚ) < 0) := by rintro ⟨h, -⟩; norm_num at h
  have h4 : ((0.5 : ℚ) < 9/10) := by norm_num
  have hs : has_suspicious_pattern ['�', '�'] = true := by decide
  have hsens : contains_sensitive_pattern ['�', '�'] = false := by decide
  unfold analyze_block check_density check_missing_area check_suspicious
    check_garbled check_low_confidence evaluate_auto_correctability
  simp only [c9_block_a, c9_issue_a, if_neg h1]
  norm_num [hs, hsens, GARBLED_CHARS, problem_mentions_garbled, h2, h3, h4]

/-- `filterMap` over a replicated element that maps to `some r`. -/
lemma filterMap_replicate_some {α β : Type} (f : α → Option β) (a : α) (r : β)
    (hf : f a = some r) : ∀ n, (List.replicate n a).filterMap f = List.replicate n r
  | 0 => rfl
  | n + 1 => by
    simp [List.replicate_succ, List.filterMap_cons, hf,
      filterMap_replicate_some f a r hf n]

/-- Counterexample to C9 as stated: `c9_block_b` satisfies every condition of
the claim (only garbled glyphs, confidence `0.9 > 0.5`, no sensitive
pattern), yet `detect_issues` — which truncates to `max_issues_per_page`
issues — surfaces no issue for it: every returned issue carries the other
text. -/
theorem garbled_issue_truncated_counterexample :
    c9_block_b ∈ c9_blocks ∧
    c9_block_b.text ≠ [] ∧
    (∀ c ∈ c9_block_b.text, c ∈ GARBLED_CHARS) ∧
    (0.5 : ℚ) < c9_block_b.confidence ∧
    contains_sensitive_pattern c9_block_b.text = false ∧
    ∀ iss ∈ detect_issues c9_blocks "p", iss.ocr_text ≠ c9_block_b.text := by
  refine ⟨by simp [c9_blocks], by decide, by decide,
    by norm_num [c9_block_b], by decide, ?_⟩
  have hd : detect_issues c9_blocks "p" = List.replicate 20 c9_issue_a := by
    unfold detect_issues c9_blocks
    rw [List.filterMap_append, filterMap_replicate_some _ _ _ analyze_block_c9a 20]
    rw [show max_issues_per_page = (List.replicate 20 c9_issue_a).length by
      simp [max_issues_per_page]]
    exact List.take_left _ _
  rw [hd]
  intro iss hiss
  rw [List.eq_of_mem_replicate hiss]
  decide

/-- The first issue of the C6 merge (bbox `{0,0,50,20}`); confidence and text
are arbitrary. -/
def c6_issue1 (c1 : ℚ) (t1 : List Char) : DetectedIssue :=
  { page_id := "p"
    bbox_x := 0
    bbox_y := 0
    bbox_width := 50
    bbox_height := 20
    issue_type := "garbled"
    confidence := c1
    ocr_text := t1
    detected_problems := []
    status := "detected"
    auto_correctable := false }

/-- The second issue of the C6 merge (bbox `{45,5,50,20}`). -/
def c6_issue2 (c2 : ℚ) (t2 : List Char) : DetectedIssue :=
  { page_id := "p"
    bbox_x := 45
    bbox_y := 5
    bbox_width := 50
    bbox_height := 20
    issue_type := "garbled"
    confidence := c2
    ocr_text := t2
    detected_problems := []
    status := "detected"
    auto_correctable := false }

/-- The C6 bboxes are nearby at threshold 20 (the test reads only the bbox
fields). -/
lemma c6_pair_nearby (c1 c2 : ℚ) (t1 t2 : List Char) :
    bboxes_nearby (c6_issue1 c1 t1) (c6_issue2 c2 t2) 20 = true := by
  unfold bboxes_nearby c6_issue1 c6_issue2
  dsimp only
  rw [decide_eq_true_eq]
  constructor <;> norm_num [abs]

/-- `merge_nearby_issues` on exactly the two C6 issues merges them into
one. -/
lemma merge_pair_eval (c1 c2 : ℚ) (t1 t2 : List Char) :
    merge_nearby_issues [c6_issue1 c1 t1, c6_issue2 c2 t2] 20
      = [merge_two_issues (c6_issue1 c1 t1) (c6_issue2 c2 t2)] := by
  unfold merge_nearby_issues
  rw [if_neg (by simp)]
  simp [List.enum, List.enumFrom, merge_outer, merge_scan, c6_pair_nearby]

/-- Counterexample to C6 as stated: with texts `" a"` and `"b"`, the merged
`ocr_text` is the stripped `"a b"`, not the plain space-join `" a b"` — the
source strips the joined string, so the claim's unqualified "joined with a
single space" fails on whitespace-edged texts. -/
theorem merge_join_strip_counterexample :
    (merge_nearby_issues [c6_issue1 1 [' ', 'a'], c6_issue2 1 ['b']] 20).map
        (fun m => m.ocr_text) = [['a', ' ', 'b']] ∧
    ['a', ' ', 'b'] ≠ [' ', 'a'] ++ [' '] ++ ['b'] := by
  constructor
  · rw [merge_pair_eval]
    decide
  · decide

/-- C6 as amended: merging exactly the two issues with bboxes `{0,0,50,20}`
and `{45,5,50,20}` at threshold 20 returns exactly one issue with bbox
`{0,0,95,25}`, the minimum of the two confidences, and the two texts joined
with a single space and then stripped. -/
theorem merge_two_nearby_issues_strip_spec (c1 c2 : ℚ) (t1 t2 : List Char) :
    ∃ m, merge_nearby_issues [c6_issue1 c1 t1, c6_issue2 c2 t2] 20 = [m] ∧
      m.bbox_x = 0 ∧ m.bbox_y = 0 ∧ m.bbox_width = 95 ∧ m.bbox_height = 25 ∧
      m.confidence = min c1 c2 ∧
      m.ocr_text = python_strip (t1 ++ [' '] ++ t2) := by
  refine ⟨_, merge_pair_eval c1 c2 t1 t2, ?_, ?_, ?_, ?_, ?_, ?_⟩
  · unfold merge_two_issues c6_issue1 c6_issue2; norm_num
  · unfold merge_two_issues c6_issue1 c6_issue2; norm_num
  · unfold merge_two_issues c6_issue1 c6_issue2; norm_num
  · unfold merge_two_issues c6_issue1 c6_issue2; norm_num
  · rfl
  · rfl

/-- The page of the C1 round-trip run: a 20×20 image whose pixels all hold
value 1. -/
def c1_page : Img := ⟨20, 20, fun _ _ => 1⟩

/-- The issue bbox of the C1 run. -/
def c1_bbox : PatchBbox := ⟨10, 10, 4, 4⟩

/-- A correction renderer for the C1 run: an all-zero patch of the ROI's
size (the argument of the round-trip claim is independent of what
`apply_text_overlay` draws, as long as it changes the ROI). -/
def c1_overlay : Img → PatchBbox → Img :=
  fun roi _ => ⟨roi.width, roi.height, fun _ _ => 0⟩

/-- The store holding the page before the correction. -/
def c1_store : Store := [("pages/1.png", c1_page)]

/-- The apply step of the C1 run. -/
def c1_applied : Option (Store × String × String) :=
  apply_correction c1_store "pages/1.png" c1_bbox c1_overlay "pr" "is"

/-- The API state after the apply step (the create-correction endpoint
stores the before-patch path, sets `applied = True` and marks the issue
`corrected`). -/
def c1_state_after_apply : ApiState :=
  match c1_applied with
  | some (st, bp, _) =>
    { store := st
      correction := { applied := true, patch_before_path := bp }
      issue := { status := "corrected", bbox := c1_bbox } }
  | none =>
    { store := []
      correction := { applied := false, patch_before_path := "" }
      issue := { status := "", bbox := c1_bbox } }

/-- The undo step of the C1 run, through the endpoint (which passes the
issue bbox as the patch bbox). -/
def c1_undone : Option Nat × ApiState :=
  undo_correction_endpoint "pages/1.png" c1_state_after_apply

/-- The page image after apply-then-undo. -/
def c1_final_page : Img :=
  (store_get c1_undone.2.store "pages/1.png").getD ⟨0, 0, fun _ _ => 0⟩

/-- C1: the apply-then-undo round trip at a concrete input.  The undo
endpoint reports success and moves the issue back to `reviewing`, but the
page image is **not** restored: the before patch was extracted at the
margin-adjusted ROI origin `(0, 0)` while the endpoint pastes it back at the
issue bbox origin `(10, 10)`, so pixel `(0, 0)` keeps the corrected value 0
instead of the original 1. -/
theorem apply_undo_round_trip_bug :
    c1_applied.isSome = true ∧
    c1_undone.1 = none ∧
    c1_undone.2.issue.status = "reviewing" ∧
    c1_final_page.pix 0 0 = 0 ∧
    c1_page.pix 0 0 = 1 := by
  decide

/-- C8: when either the before patch or the page image is missing from
storage, `undo_correction` returns `false` with the store untouched, and the
undo endpoint responds 500 leaving the whole state — store, the
correction's `applied` flag, the issue's status — unchanged, so the undo is
retryable. -/
theorem undo_failure_leaves_state (st : ApiState) (page_image_path : String)
    (happ : st.correction.applied = true)
    (h : store_get st.store st.correction.patch_before_path = none ∨
      store_get st.store page_image_path = none) :
    undo_correction st.store page_image_path st.correction.patch_before_path
      st.issue.bbox = (false, st.store) ∧
    undo_correction_endpoint page_image_path st = (some 500, st) := by
  have hu : undo_correction st.store page_image_path
      st.correction.patch_before_path st.issue.bbox = (false, st.store) := by
    unfold undo_correction apply_patch_to_page
    rcases h with h | h
    · rw [h]
    · rw [h]
      cases store_get st.store st.correction.patch_before_path <;> rfl
  refine ⟨hu, ?_⟩
  unfold undo_correction_endpoint
  rw [if_neg (by simp [happ])]
  rw [hu]
  rfl

/-- The store of the C8 witness: it has the page but not the before patch. -/
def c8_state : ApiState :=
  { store := [("pages/1.png", ⟨8, 8, fun _ _ => 3⟩)]
    correction := { applied := true, patch_before_path := "missing.png" }
    issue := { status := "corrected", bbox := ⟨1, 1, 2, 2⟩ } }

/-- Witness for C8: undoing with a missing before patch fails with state
unchanged. -/
theorem undo_failure_leaves_state_witness :
    undo_correction c8_state.store "pages/1.png"
      c8_state.correction.patch_before_path c8_state.issue.bbox
      = (false, c8_state.store) ∧
    undo_correction_endpoint "pages/1.png" c8_state = (some 500, c8_state) :=
  undo_failure_leaves_state c8_state "pages/1.png" rfl (Or.inl rfl)

end NB
